import Mathlib

/-!
Verification of the helper-function layer of
`multimodal_ML_brain_age_ridge_feat_selection_cleaned.ipynb`:
`train_model`, `predict_ages`, `evaluate_feature_ablation` and
`calculate_mae`.

Modelling conventions: float64 values are exact rationals; a pandas data
frame is an ordered association list of named numeric columns; the numeric
cores of the scikit-learn library calls (scaler fitting, cross-validated
hyperparameter search, model fitting, raw prediction) are opaque library
behaviour taken as an abstract backend, while every piece of configuration
the notebook passes into those calls is embedded concretely and exactly.
-/

abbrev Col := String

abbrev Series := List ℚ

/-- A pandas data frame restricted to what the notebook uses: an ordered
association list of named numeric columns, each column a list of row
values. -/
abbrev DataFrame := List (Col × Series)

/-- Errors raised by the embedded pandas / numpy / validation code:
`KeyError` from column removal or selection, `ValueError` from the
`train_model` dispatch, and numpy's broadcast `ValueError` from elementwise
arithmetic on incompatible shapes. -/
inductive PyError where
  | keyError (missing : List Col)
  | valueError (msg : String)
  | broadcastError (n m : Nat)
deriving DecidableEq

instance exceptDecEq {ε α : Type} [DecidableEq ε] [DecidableEq α] :
    DecidableEq (Except ε α)
  | Except.error a, Except.error b =>
    if h : a = b then isTrue (h ▸ rfl) else isFalse (fun hc => h (by cases hc; rfl))
  | Except.error _, Except.ok _ => isFalse (fun hc => Except.noConfusion hc)
  | Except.ok _, Except.error _ => isFalse (fun hc => Except.noConfusion hc)
  | Except.ok a, Except.ok b =>
    if h : a = b then isTrue (h ▸ rfl) else isFalse (fun hc => h (by cases hc; rfl))

/-- Column labels of a data frame, in order. -/
def columnsOf (df : DataFrame) : List Col := df.map Prod.fst

/-- Whether every label in `labels` is a column of `df`. -/
def hasCols (df : DataFrame) (labels : List Col) : Bool :=
  labels.all (fun l => (columnsOf df).contains l)

/-- Total version of column dropping: keep the columns whose label is not
listed. This is what `df.drop(labels, axis=1)` computes on its success
path. -/
def dropD (df : DataFrame) (labels : List Col) : DataFrame :=
  df.filter (fun c => !(labels.contains c.1))

/-- `df.drop(labels, axis=1)`: pandas raises `KeyError` (naming the missing
labels) when any requested label is absent, otherwise removes the listed
columns. -/
def dropCols (df : DataFrame) (labels : List Col) : Except PyError DataFrame :=
  if hasCols df labels then Except.ok (dropD df labels)
  else Except.error (PyError.keyError (labels.filter (fun l => !((columnsOf df).contains l))))

/-- Total version of column selection: the first column named `c`, or the
empty series. -/
def getColD (df : DataFrame) (c : Col) : Series :=
  ((df.find? (fun p => p.1 == c)).map Prod.snd).getD []

/-- `df[c]`: pandas raises `KeyError` when the column is absent. -/
def getCol (df : DataFrame) (c : Col) : Except PyError Series :=
  match df.find? (fun p => p.1 == c) with
  | some p => Except.ok p.2
  | none => Except.error (PyError.keyError [c])

/-- `.astype('float64')`: values are already modelled as exact rationals, so
the cast is the identity (the cohort-table invariant makes every feature
column numeric). -/
def astypeFloat64 (df : DataFrame) : DataFrame := df

/-- numpy 1-d elementwise subtraction with broadcasting: defined for equal
lengths, and for a length-1 operand broadcast against the other; any other
shape combination raises numpy's broadcast `ValueError`. -/
def npSub (a b : Series) : Except PyError Series :=
  if a.length = b.length then Except.ok (List.zipWith (fun x y => x - y) a b)
  else if a.length = 1 then Except.ok (b.map (fun y => a.headD 0 - y))
  else if b.length = 1 then Except.ok (a.map (fun x => x - b.headD 0))
  else Except.error (PyError.broadcastError a.length b.length)

/-- `np.abs`, elementwise. -/
def npAbs (xs : Series) : Series := xs.map (fun d => |d|)

/-- `np.mean`: the arithmetic mean; on an empty array numpy returns NaN
(modelled as `none`). -/
def npMean (xs : Series) : Option ℚ :=
  if xs.isEmpty then none else some (xs.sum / (xs.length : ℚ))

/-- numpy rounding of a value to an integer: round half to even. -/
def roundHalfEven (q : ℚ) : Int :=
  let f := ⌊q⌋
  let r := q - (f : ℚ)
  if r < 1 / 2 then f
  else if 1 / 2 < r then f + 1
  else if f % 2 = 0 then f else f + 1

/-- Rounding to 3 decimal digits, as in `np.round(x, 3)`. -/
def round3 (q : ℚ) : ℚ := ((roundHalfEven (q * 1000) : ℚ)) / 1000

/-- `np.round(xs, 3)`, elementwise. -/
def npRound3 (xs : Series) : Series := xs.map round3

/-- `np.linspace start stop num` (with endpoint), exact over ℚ. -/
def npLinspace (start stop : ℚ) (num : Nat) : List ℚ :=
  (List.range num).map (fun i : Nat => start + (stop - start) * (i : ℚ) / ((num : ℚ) - 1))

/-- The two scaler classes the notebook instantiates. -/
inductive ScalerKind where
  | minmax
  | standard
deriving DecidableEq

/-- `RepeatedKFold(n_splits=5, n_repeats=10, random_state=1)`. -/
structure RepeatedKFold where
  n_splits : Nat
  n_repeats : Nat
  random_state : Nat
deriving DecidableEq

/-- The regularization grid `10 ** np.linspace(10, -2, 100) * 0.5`, kept in
the symbolic per-entry form `base ^ exponent * scale`: the exponents are
fractional, so the strengths themselves are irrational reals, and every
structural property of the grid (size, span, geometric spacing, scaling)
lives in this data. -/
structure GeomAlphas where
  exponents : List ℚ
  base : ℚ
  scale : ℚ

/-- Configuration the notebook passes to
`RidgeCV(alphas=alphas, scoring='neg_mean_absolute_error', cv=cv)`. -/
structure RidgeCVConfig where
  alphas : GeomAlphas
  scoring : String
  cv : RepeatedKFold

/-- The SVR hyperparameter grid `param_grid`. -/
structure SVRGrid where
  C : List ℚ
  epsilon : List ℚ
  kernel : List String

/-- Configuration the notebook passes to
`GridSearchCV(svr, param_grid, scoring='neg_mean_absolute_error', cv=cv,
n_jobs=-1)`. -/
structure SVRGridConfig where
  grid : SVRGrid
  scoring : String
  cv : RepeatedKFold
  n_jobs : Int

/-- A chosen SVR hyperparameter combination (`grid_search.best_params_`). -/
structure SVRParams where
  C : ℚ
  epsilon : ℚ
  kernel : String
deriving DecidableEq

/-- The final estimator the notebook constructs before the closing
`final_model.fit`: `Ridge(alpha=ridgecv.alpha_)` or
`SVR(**grid_search.best_params_)`. -/
inductive ModelSpec where
  | ridge (alpha : ℚ)
  | svr (params : SVRParams)
deriving DecidableEq

/-- `cv = RepeatedKFold(n_splits=5, n_repeats=10, random_state=1)`. -/
def repeatedKFoldCV : RepeatedKFold := ⟨5, 10, 1⟩

/-- `alphas = 10**np.linspace(10, -2, 100) * 0.5`. -/
def ridgeAlphas : GeomAlphas := ⟨npLinspace 10 (-2) 100, 10, 0.5⟩

/-- The full `RidgeCV` configuration built by `train_model`. -/
def ridgeCVConfig : RidgeCVConfig := ⟨ridgeAlphas, "neg_mean_absolute_error", repeatedKFoldCV⟩

/-- `param_grid` of the SVR branch of `train_model`. -/
def svrParamGrid : SVRGrid := ⟨[0.1, 1, 10, 100], [0.01, 0.1, 1], ["linear", "rbf"]⟩

/-- The full `GridSearchCV` configuration built by `train_model`. -/
def svrGridConfig : SVRGridConfig := ⟨svrParamGrid, "neg_mean_absolute_error", repeatedKFoldCV, -1⟩

/-- `scaler = MinMaxScaler() if scaler_type == 'minmax' else StandardScaler()`:
note that any selector other than `'minmax'` yields the standard scaler. -/
def scalerKindOf (scaler_type : String) : ScalerKind :=
  if scaler_type = "minmax" then ScalerKind.minmax else ScalerKind.standard

/-- Abstract interface to the scikit-learn numeric cores the notebook
invokes. The fitted-state types and the floating-point numerics behind
fitting, the seeded cross-validated searches and raw prediction are library
internals outside the repository; every property proved below holds for an
arbitrary backend, while all configuration data the notebook passes to the
library is embedded concretely. -/
structure Sklearn where
  ScalerState : Type
  ModelState : Type
  /-- `scaler.fit_transform(X)`: the fitted scaler state and the transformed
  training data. -/
  scalerFitTransform : ScalerKind → DataFrame → ScalerState × DataFrame
  /-- `scaler.transform(X)` with an already fitted scaler. -/
  scalerTransform : ScalerState → DataFrame → DataFrame
  /-- `RidgeCV(...).fit(X, y).alpha_`: the best regularization strength. -/
  ridgeCVAlpha : RidgeCVConfig → DataFrame → Series → ℚ
  /-- `GridSearchCV(SVR(), ...).fit(X, y).best_params_`. -/
  svrGridBest : SVRGridConfig → DataFrame → Series → SVRParams
  /-- `final_model.fit(X, y)` for the constructed estimator. -/
  fitModel : ModelSpec → DataFrame → Series → ModelState
  /-- `model.predict(X)`: raw (unrounded) predictions. -/
  modelPredict : ModelState → DataFrame → Series

/-- `train_model(X_train, y_train, model_type, scaler_type)`: choose the
scaler, normalize the training features with it, run the cross-validated
hyperparameter search for the chosen model kind, and fit the final model on
the full normalized training set; an unrecognized model kind raises
`ValueError(f"Unsupported model type: {m}")` naming the selector. -/
def train_model (sk : Sklearn) (X_train : DataFrame) (y_train : Series)
    (model_type scaler_type : String) :
    Except PyError (sk.ModelState × sk.ScalerState) :=
  let fitted := sk.scalerFitTransform (scalerKindOf scaler_type) X_train
  let scaler := fitted.1
  let X_train_normalized := fitted.2
  if model_type = "ridge" then
    let best_alpha := sk.ridgeCVAlpha ridgeCVConfig X_train_normalized y_train
    Except.ok (sk.fitModel (ModelSpec.ridge best_alpha) X_train_normalized y_train, scaler)
  else if model_type = "svm" then
    let best_params := sk.svrGridBest svrGridConfig X_train_normalized y_train
    Except.ok (sk.fitModel (ModelSpec.svr best_params) X_train_normalized y_train, scaler)
  else
    Except.error (PyError.valueError ("Unsupported model type: " ++ model_type))

/-- The pair `train_model` returns on either of its two recognized model
kinds. -/
def train_model_result (sk : Sklearn) (X_train : DataFrame) (y_train : Series)
    (model_type scaler_type : String) : sk.ModelState × sk.ScalerState :=
  let fitted := sk.scalerFitTransform (scalerKindOf scaler_type) X_train
  let spec :=
    if model_type = "svm" then ModelSpec.svr (sk.svrGridBest svrGridConfig fitted.2 y_train)
    else ModelSpec.ridge (sk.ridgeCVAlpha ridgeCVConfig fitted.2 y_train)
  (sk.fitModel spec fitted.2 y_train, fitted.1)

/-- `predict_ages(model, scaler, X)`: transform `X` with the given fitted
scaler (transform only, never a refit), apply the model, round to 3
decimals. -/
def predict_ages (sk : Sklearn) (model : sk.ModelState) (scaler : sk.ScalerState)
    (X : DataFrame) : Series :=
  let X_normalized := sk.scalerTransform scaler X
  let predictions := sk.modelPredict model X_normalized
  npRound3 predictions

/-- Modelled from the spec: the seven feature-group column lists are imported
from the module `imaging_features`, which is not among the repository's
source files; the spec fixes only that there are seven named groups (FLAIR
hyperintensities, DTI, CBF, resting-state activation, ventricular volume,
surface area, cortical thickness), so the column contents stay abstract. -/
structure ImagingFeatures where
  hyperintensities_flair : List Col
  dti : List Col
  cbf : List Col
  resting_state_activation : List Col
  ventricular_volume : List Col
  surface_area : List Col
  cortical_thickness : List Col

/-- The literal list the ablation loop iterates over, in the notebook's
fixed order. -/
def featureList (fg : ImagingFeatures) : List (List Col) :=
  [fg.hyperintensities_flair, fg.dti, fg.cbf, fg.resting_state_activation,
   fg.ventricular_volume, fg.surface_area, fg.cortical_thickness]

/-- The three non-feature columns `['Age at Visit', 'BD#', 'Dx']`. -/
def nonFeatureCols : List Col := ["Age at Visit", "BD#", "Dx"]

/-- The body of `evaluate_feature_ablation`'s `for feature in [...]` loop,
one iteration per feature group: drop the non-feature columns plus the
group's columns from the training and disease tables, train, predict on the
disease table, and, when a control table is supplied, drop the same columns
there and predict with the same freshly trained model and scaler. A raised
exception aborts the whole loop. -/
def ablationLoop (sk : Sklearn) (df_train_control df_test_disease : DataFrame)
    (model_type scalar_type : String) (df_test_control : Option DataFrame) :
    List (List Col) → Except PyError (List Series × List Series)
  | [] => Except.ok ([], [])
  | feature :: rest =>
    match dropCols df_train_control (nonFeatureCols ++ feature) with
    | Except.error e => Except.error e
    | Except.ok train_dropped =>
      let X_train_control := astypeFloat64 train_dropped
      match dropCols df_test_disease (nonFeatureCols ++ feature) with
      | Except.error e => Except.error e
      | Except.ok disease_dropped =>
        let X_test_disease := astypeFloat64 disease_dropped
        match getCol df_train_control "Age at Visit" with
        | Except.error e => Except.error e
        | Except.ok y_train_control =>
          match train_model sk X_train_control y_train_control model_type scalar_type with
          | Except.error e => Except.error e
          | Except.ok ms =>
            let y_pred_disease := predict_ages sk ms.1 ms.2 X_test_disease
            match df_test_control with
            | none =>
              match ablationLoop sk df_train_control df_test_disease model_type scalar_type
                  none rest with
              | Except.error e => Except.error e
              | Except.ok r => Except.ok (y_pred_disease :: r.1, r.2)
            | some dfc =>
              match dropCols dfc (nonFeatureCols ++ feature) with
              | Except.error e => Except.error e
              | Except.ok control_dropped =>
                let X_test_control := astypeFloat64 control_dropped
                let y_pred_control := predict_ages sk ms.1 ms.2 X_test_control
                match ablationLoop sk df_train_control df_test_disease model_type scalar_type
                    (some dfc) rest with
                | Except.error e => Except.error e
                | Except.ok r => Except.ok (y_pred_disease :: r.1, y_pred_control :: r.2)

/-- `evaluate_feature_ablation(df_train_control, df_test_disease, model_type,
scalar_type, df_test_control=None)`: run the ablation loop over the seven
feature groups in their fixed order and return
`(results_disease, results_control)`. -/
def evaluate_feature_ablation (sk : Sklearn) (fg : ImagingFeatures)
    (df_train_control df_test_disease : DataFrame) (model_type scalar_type : String)
    (df_test_control : Option DataFrame) : Except PyError (List Series × List Series) :=
  ablationLoop sk df_train_control df_test_disease model_type scalar_type df_test_control
    (featureList fg)

/-- The model/scaler pair trained in the iteration of the ablation loop that
ablates group `g`: trained on the training cohort with the three non-feature
columns and `g`'s columns removed, against the cohort's `'Age at Visit'`
column. -/
def ablationTrained (sk : Sklearn) (train : DataFrame) (mt st : String) (g : List Col) :
    sk.ModelState × sk.ScalerState :=
  train_model_result sk (astypeFloat64 (dropD train (nonFeatureCols ++ g)))
    (getColD train "Age at Visit") mt st

/-- The prediction appended for group `g` on the evaluation table `dfEval`:
the model and scaler of that iteration's single training call, applied to
`dfEval` with the same columns removed. -/
def ablationPrediction (sk : Sklearn) (train : DataFrame) (mt st : String) (g : List Col)
    (dfEval : DataFrame) : Series :=
  predict_ages sk (ablationTrained sk train mt st g).1 (ablationTrained sk train mt st g).2
    (astypeFloat64 (dropD dfEval (nonFeatureCols ++ g)))

/-- The MAE value computed for one prediction array of the same length as
the ground truth: `np.mean(np.abs(predictions - y_test))`. -/
def maeValue (p y : Series) : Option ℚ :=
  npMean (npAbs (List.zipWith (fun x v => x - v) p y))

/-- `calculate_mae(predictions_list, y_test)`: the MAE of each prediction
array against the ground truth, in input order; a numpy broadcast error in
`predictions - y_test` aborts the whole call. -/
def calculate_mae (predictions_list : List Series) (y_test : Series) :
    Except PyError (List (Option ℚ)) :=
  match predictions_list with
  | [] => Except.ok []
  | predictions :: rest =>
    match npSub predictions y_test with
    | Except.error e => Except.error e
    | Except.ok diff =>
      let mae := npMean (npAbs diff)
      match calculate_mae rest y_test with
      | Except.error e => Except.error e
      | Except.ok rest_results => Except.ok (mae :: rest_results)

/-- A minimal concrete backend used to evaluate the pipeline on concrete
inputs: scaler state is the chosen kind, model state is the constructed
estimator spec, raw predictions are empty. -/
def skTriv : Sklearn where
  ScalerState := ScalerKind
  ModelState := ModelSpec
  scalerFitTransform := fun k X => (k, X)
  scalerTransform := fun _ X => X
  ridgeCVAlpha := fun _ _ _ => 1
  svrGridBest := fun _ _ _ => ⟨1, 1, "linear"⟩
  fitModel := fun spec _ _ => spec
  modelPredict := fun _ _ => []

/-- Concrete feature groups for evaluating the pipeline on concrete
inputs. -/
def fgTest : ImagingFeatures := ⟨["f1"], ["f2"], ["f3"], ["f4"], ["f5"], ["f6"], ["f7"]⟩

/-- A concrete cohort table carrying the three non-feature columns, the
columns of every group of `fgTest`, and one extra feature column. -/
def dfTest : DataFrame :=
  [("Age at Visit", [30, 41]), ("BD#", [1, 2]), ("Dx", [0, 1]),
   ("f1", [1, 2]), ("f2", [1, 2]), ("f3", [1, 2]), ("f4", [1, 2]),
   ("f5", [1, 2]), ("f6", [1, 2]), ("f7", [1, 2]), ("extra", [3, 4])]

/-- Concrete one-column feature table for `train_model` evaluations. -/
def dfX1 : DataFrame := [("a", [1, 2])]

/-- Concrete target vector for `train_model` evaluations. -/
def y1 : Series := [30, 40]

theorem dropCols_of_hasCols (df : DataFrame) (labels : List Col)
    (h : hasCols df labels = true) :
    dropCols df labels = Except.ok (dropD df labels) := by
  simp [dropCols, h]

theorem contains_of_hasCols (df : DataFrame) (labels : List Col) (c : Col)
    (hm : c ∈ labels) (h : hasCols df labels = true) :
    (columnsOf df).contains c = true :=
  List.all_eq_true.mp h c hm

theorem getCol_ok_of_contains (df : DataFrame) (c : Col)
    (h : (columnsOf df).contains c = true) :
    getCol df c = Except.ok (getColD df c) := by
  have hex : ∃ p ∈ df, (p.1 == c) = true := by
    have hc : c ∈ df.map Prod.fst := by simpa [columnsOf] using h
    rcases List.mem_map.mp hc with ⟨p, hp, hpc⟩
    exact ⟨p, hp, by simp [hpc]⟩
  cases hfind : df.find? (fun p => p.1 == c) with
  | none =>
    rcases hex with ⟨p, hp, hpc⟩
    exact absurd hpc (by simpa using List.find?_eq_none.mp hfind p hp)
  | some p => simp [getCol, getColD, hfind]

theorem train_model_valid_ok (sk : Sklearn) (X : DataFrame) (y : Series)
    (mt st : String) (h : mt = "ridge" ∨ mt = "svm") :
    train_model sk X y mt st = Except.ok (train_model_result sk X y mt st) := by
  rcases h with h | h <;> subst h <;> rfl

theorem ablationLoop_none_eq (sk : Sklearn) (train disease : DataFrame) (mt st : String)
    (hmt : mt = "ridge" ∨ mt = "svm") :
    ∀ gs : List (List Col),
      (∀ g ∈ gs, hasCols train (nonFeatureCols ++ g) = true ∧
        hasCols disease (nonFeatureCols ++ g) = true) →
      ablationLoop sk train disease mt st none gs =
        Except.ok (gs.map (fun g => ablationPrediction sk train mt st g disease), []) := by
  intro gs
  induction gs with
  | nil => intro _; rfl
  | cons g rest ih =>
    intro h
    have h1 := (h g (by simp)).1
    have h2 := (h g (by simp)).2
    have hage := getCol_ok_of_contains train "Age at Visit"
      (contains_of_hasCols train (nonFeatureCols ++ g) "Age at Visit"
        (by simp [nonFeatureCols]) h1)
    have hrec := ih (fun g2 hg => h g2 (by simp [hg]))
    simp only [ablationLoop, dropCols_of_hasCols train _ h1, dropCols_of_hasCols disease _ h2,
      hage,
      train_model_valid_ok sk (astypeFloat64 (dropD train (nonFeatureCols ++ g)))
        (getColD train "Age at Visit") mt st hmt,
      hrec, List.map_cons]
    rfl

theorem ablationLoop_some_eq (sk : Sklearn) (train disease ctrl : DataFrame) (mt st : String)
    (hmt : mt = "ridge" ∨ mt = "svm") :
    ∀ gs : List (List Col),
      (∀ g ∈ gs, hasCols train (nonFeatureCols ++ g) = true ∧
        hasCols disease (nonFeatureCols ++ g) = true ∧
        hasCols ctrl (nonFeatureCols ++ g) = true) →
      ablationLoop sk train disease mt st (some ctrl) gs =
        Except.ok (gs.map (fun g => ablationPrediction sk train mt st g disease),
          gs.map (fun g => ablationPrediction sk train mt st g ctrl)) := by
  intro gs
  induction gs with
  | nil => intro _; rfl
  | cons g rest ih =>
    intro h
    have h1 := (h g (by simp)).1
    have h2 := (h g (by simp)).2.1
    have h3 := (h g (by simp)).2.2
    have hage := getCol_ok_of_contains train "Age at Visit"
      (contains_of_hasCols train (nonFeatureCols ++ g) "Age at Visit"
        (by simp [nonFeatureCols]) h1)
    have hrec := ih (fun g2 hg => h g2 (by simp [hg]))
    simp only [ablationLoop, dropCols_of_hasCols train _ h1, dropCols_of_hasCols disease _ h2,
      dropCols_of_hasCols ctrl _ h3, hage,
      train_model_valid_ok sk (astypeFloat64 (dropD train (nonFeatureCols ++ g)))
        (getColD train "Age at Visit") mt st hmt,
      hrec, List.map_cons]
    rfl

theorem ablationLoop_none_snd (sk : Sklearn) (train disease : DataFrame) (mt st : String) :
    ∀ (gs : List (List Col)) (r : List Series × List Series),
      ablationLoop sk train disease mt st none gs = Except.ok r → r.2 = [] := by
  intro gs
  induction gs with
  | nil =>
    intro r h
    have h2 : (([], []) : List Series × List Series) = r := by
      simpa [ablationLoop] using h
    rw [← h2]
  | cons g rest ih =>
    intro r h
    cases hda : dropCols train (nonFeatureCols ++ g) with
    | error e => simp [ablationLoop, hda] at h
    | ok X1 =>
      cases hdb : dropCols disease (nonFeatureCols ++ g) with
      | error e => simp [ablationLoop, hda, hdb] at h
      | ok X2 =>
        cases hg : getCol train "Age at Visit" with
        | error e => simp [ablationLoop, hda, hdb, hg] at h
        | ok yv =>
          cases htm : train_model sk (astypeFloat64 X1) yv mt st with
          | error e => simp [ablationLoop, hda, hdb, hg, htm] at h
          | ok ms =>
            cases hrec : ablationLoop sk train disease mt st none rest with
            | error e => simp [ablationLoop, hda, hdb, hg, htm, hrec] at h
            | ok r2 =>
              have h2 : (predict_ages sk ms.1 ms.2 (astypeFloat64 X2) :: r2.1, r2.2) = r := by
                simpa [ablationLoop, hda, hdb, hg, htm, hrec] using h
              rw [← h2]
              exact ih r2 hrec

theorem roundHalfEven_close (x : ℚ) : |(roundHalfEven x : ℚ) - x| ≤ 1 / 2 := by
  have h0 : ((⌊x⌋ : ℚ)) ≤ x := Int.floor_le x
  have h1 : x < (⌊x⌋ : ℚ) + 1 := Int.lt_floor_add_one x
  unfold roundHalfEven
  by_cases hlt : x - (⌊x⌋ : ℚ) < 1 / 2
  · rw [if_pos hlt, abs_le]
    constructor <;> linarith
  · rw [if_neg hlt]
    by_cases hgt : 1 / 2 < x - (⌊x⌋ : ℚ)
    · rw [if_pos hgt, abs_le]
      push_cast
      constructor <;> linarith
    · rw [if_neg hgt]
      have heq : x - (⌊x⌋ : ℚ) = 1 / 2 := le_antisymm (not_lt.mp hgt) (not_lt.mp hlt)
      by_cases hpar : ⌊x⌋ % 2 = 0
      · rw [if_pos hpar, abs_le]
        constructor <;> linarith
      · rw [if_neg hpar, abs_le]
        push_cast
        constructor <;> linarith

theorem round3_close (q : ℚ) : |round3 q - q| ≤ 1 / 2000 := by
  have h := roundHalfEven_close (q * 1000)
  have heq : round3 q - q = ((roundHalfEven (q * 1000) : ℚ) - q * 1000) / 1000 := by
    unfold round3
    ring
  rw [heq, abs_div, abs_of_pos (by norm_num : (0 : ℚ) < 1000),
    div_le_iff₀ (by norm_num : (0 : ℚ) < 1000)]
  calc |(roundHalfEven (q * 1000) : ℚ) - q * 1000| ≤ 1 / 2 := h
    _ = 1 / 2000 * 1000 := by norm_num

theorem round3_mul_1000_den (q : ℚ) : (round3 q * 1000).den = 1 := by
  have heq : round3 q * 1000 = ((roundHalfEven (q * 1000) : ℚ)) := by
    unfold round3
    field_simp
  rw [heq]
  exact Rat.den_intCast _

theorem npLinspace_getD (s t : ℚ) (n i : Nat) (h : i < n) :
    (npLinspace s t n).getD i 0 = s + (t - s) * (i : ℚ) / ((n : ℚ) - 1) := by
  rw [npLinspace, List.getD_eq_getElem?_getD, List.getElem?_map, List.getElem?_range h]
  rfl

theorem list_sum_nonneg (l : List ℚ) (h : ∀ a ∈ l, 0 ≤ a) : 0 ≤ l.sum := by
  induction l with
  | nil => simp
  | cons a rest ih =>
    rw [List.sum_cons]
    exact add_nonneg (h a (by simp)) (ih (fun b hb => h b (by simp [hb])))

theorem abs_diffs_sum_zero_iff :
    ∀ (p y : Series), p.length = y.length →
      ((npAbs (List.zipWith (fun x v => x - v) p y)).sum = 0 ↔ p = y)
  | [], [], _ => by simp [npAbs]
  | [], v :: ys, h => by simp at h
  | x :: ps, [], h => by simp at h
  | x :: ps, v :: ys, h => by
    have hlen : ps.length = ys.length := by simpa using h
    have hrest := abs_diffs_sum_zero_iff ps ys hlen
    have h1 : (0 : ℚ) ≤ |x - v| := abs_nonneg _
    have h2 : (0 : ℚ) ≤ (npAbs (List.zipWith (fun a b => a - b) ps ys)).sum := by
      refine list_sum_nonneg _ ?_
      intro a ha
      simp only [npAbs, List.mem_map] at ha
      rcases ha with ⟨d, _, rfl⟩
      exact abs_nonneg d
    simp only [npAbs, List.zipWith_cons_cons, List.map_cons, List.sum_cons]
    rw [add_eq_zero_iff_of_nonneg h1 (by simpa [npAbs] using h2), abs_eq_zero, sub_eq_zero]
    constructor
    · rintro ⟨rfl, hs⟩
      have := hrest.mp (by simpa [npAbs] using hs)
      rw [this]
    · intro hxy
      have hx : x = v := by
        have := congrArg (fun l => l.headD 0) hxy
        simpa using this
      have hps : ps = ys := by
        have := congrArg List.tail hxy
        simpa using this
      exact ⟨hx, by simpa [npAbs] using hrest.mpr hps⟩

/-- C1: for every training and disease cohort table holding the three
non-feature columns and every group's columns, `evaluate_feature_ablation`
iterates over the seven feature groups in the fixed order (FLAIR
hyperintensities, DTI, CBF, resting-state activation, ventricular volume,
surface area, cortical thickness); each iteration removes
`['Age at Visit', 'BD#', 'Dx']` plus the current group's columns from both
tables, trains on the training cohort's remaining features against its
`'Age at Visit'` column, predicts on the disease evaluation features and
appends that prediction, so the disease result list has one entry per group
in that fixed order. -/
theorem evaluate_ablation_fixed_order (sk : Sklearn) (fg : ImagingFeatures)
    (train disease : DataFrame) (mt st : String)
    (hmt : mt = "ridge" ∨ mt = "svm")
    (hcols : ∀ g ∈ featureList fg, hasCols train (nonFeatureCols ++ g) = true ∧
      hasCols disease (nonFeatureCols ++ g) = true) :
    evaluate_feature_ablation sk fg train disease mt st none =
      Except.ok ((featureList fg).map (fun g => ablationPrediction sk train mt st g disease),
        []) ∧
    ((featureList fg).map (fun g => ablationPrediction sk train mt st g disease)).length = 7 :=
  ⟨ablationLoop_none_eq sk train disease mt st hmt (featureList fg) hcols,
    by simp [featureList]⟩

/-- Witness for C1: the theorem applied to a concrete backend, concrete
feature groups and concrete cohort tables. -/
theorem evaluate_ablation_fixed_order_witness :
    evaluate_feature_ablation skTriv fgTest dfTest dfTest "ridge" "minmax" none =
      Except.ok ((featureList fgTest).map
        (fun g => ablationPrediction skTriv dfTest "ridge" "minmax" g dfTest), []) ∧
    ((featureList fgTest).map
      (fun g => ablationPrediction skTriv dfTest "ridge" "minmax" g dfTest)).length = 7 :=
  evaluate_ablation_fixed_order skTriv fgTest dfTest dfTest "ridge" "minmax"
    (Or.inl rfl) (by decide)

/-- C2 as amended: under the same column requirements, the disease result
list is exactly the per-group prediction map over the fixed feature-group
list — 7 entries ordered identically to that list — and the control result
list is the same ordered 7-entry map over the control cohort when one is
supplied, and empty (0 entries) when it is omitted. -/
theorem evaluate_result_lengths (sk : Sklearn) (fg : ImagingFeatures)
    (train disease : DataFrame) (mt st : String) (ctrl : Option DataFrame)
    (hmt : mt = "ridge" ∨ mt = "svm")
    (hcols : ∀ g ∈ featureList fg, hasCols train (nonFeatureCols ++ g) = true ∧
      hasCols disease (nonFeatureCols ++ g) = true)
    (hctrl : ∀ c, ctrl = some c →
      ∀ g ∈ featureList fg, hasCols c (nonFeatureCols ++ g) = true) :
    evaluate_feature_ablation sk fg train disease mt st ctrl =
      Except.ok ((featureList fg).map (fun g => ablationPrediction sk train mt st g disease),
        ctrl.elim [] (fun c =>
          (featureList fg).map (fun g => ablationPrediction sk train mt st g c))) ∧
    ((featureList fg).map (fun g => ablationPrediction sk train mt st g disease)).length = 7 ∧
    (ctrl.elim [] (fun c =>
      (featureList fg).map (fun g => ablationPrediction sk train mt st g c))).length =
      (if ctrl.isSome then 7 else 0) := by
  cases ctrl with
  | none =>
    exact ⟨ablationLoop_none_eq sk train disease mt st hmt (featureList fg) hcols,
      by simp [featureList], by simp⟩
  | some c =>
    exact ⟨ablationLoop_some_eq sk train disease c mt st hmt (featureList fg)
      (fun g hg => ⟨(hcols g hg).1, (hcols g hg).2, hctrl c rfl g hg⟩),
      by simp [featureList], by simp [featureList]⟩

/-- Counterexample for C2 as stated: at a concrete call with the control
cohort omitted, the second returned result list is empty, not of length
7. -/
theorem evaluate_control_length_cex :
    evaluate_feature_ablation skTriv fgTest dfTest dfTest "ridge" "minmax" none =
      Except.ok (List.replicate 7 [], []) ∧ ([] : List Series).length ≠ 7 :=
  ⟨rfl, by decide⟩

/-- Witness for the amended C2 at a concrete call with a control cohort
supplied. -/
theorem evaluate_result_lengths_witness :
    evaluate_feature_ablation skTriv fgTest dfTest dfTest "ridge" "minmax" (some dfTest) =
      Except.ok ((featureList fgTest).map
        (fun g => ablationPrediction skTriv dfTest "ridge" "minmax" g dfTest),
        (some dfTest).elim [] (fun c => (featureList fgTest).map
          (fun g => ablationPrediction skTriv dfTest "ridge" "minmax" g c))) ∧
    ((featureList fgTest).map
      (fun g => ablationPrediction skTriv dfTest "ridge" "minmax" g dfTest)).length = 7 ∧
    ((some dfTest).elim [] (fun c => (featureList fgTest).map
      (fun g => ablationPrediction skTriv dfTest "ridge" "minmax" g c))).length =
      (if (some dfTest).isSome then 7 else 0) :=
  evaluate_result_lengths skTriv fgTest dfTest dfTest "ridge" "minmax" (some dfTest)
    (Or.inl rfl) (by decide)
    (fun c hc => by
      injection hc with h
      subst h
      decide)

/-- C3: whenever `evaluate_feature_ablation` is called with the control
cohort omitted and returns, its second result list is the empty sequence of
length 0 (the returned value is always a pair of lists, never an absent
component). -/
theorem evaluate_none_control_empty (sk : Sklearn) (fg : ImagingFeatures)
    (train disease : DataFrame) (mt st : String) (r : List Series × List Series)
    (h : evaluate_feature_ablation sk fg train disease mt st none = Except.ok r) :
    r.2 = [] ∧ r.2.length = 0 := by
  have h2 := ablationLoop_none_snd sk train disease mt st (featureList fg) r h
  exact ⟨h2, by simp [h2]⟩

/-- Witness for C3: the theorem applied at a concrete call whose result is
computed by evaluation. -/
theorem evaluate_none_control_empty_witness :
    ((List.replicate 7 [], ([] : List Series)) :
      List Series × List Series).2 = [] ∧
    ((List.replicate 7 [], ([] : List Series)) : List Series × List Series).2.length = 0 :=
  evaluate_none_control_empty skTriv fgTest dfTest dfTest "ridge" "minmax"
    (List.replicate 7 [], []) rfl

/-- C10: with a control cohort supplied, the i-th disease prediction and the
i-th control prediction of every iteration are produced by the identical
trained model and fitted scaler pair `ablationTrained` of that iteration's
single training call. -/
theorem evaluate_shared_model_per_group (sk : Sklearn) (fg : ImagingFeatures)
    (train disease ctrl : DataFrame) (mt st : String)
    (hmt : mt = "ridge" ∨ mt = "svm")
    (hcols : ∀ g ∈ featureList fg, hasCols train (nonFeatureCols ++ g) = true ∧
      hasCols disease (nonFeatureCols ++ g) = true ∧
      hasCols ctrl (nonFeatureCols ++ g) = true) :
    evaluate_feature_ablation sk fg train disease mt st (some ctrl) =
      Except.ok ((featureList fg).map (fun g => ablationPrediction sk train mt st g disease),
        (featureList fg).map (fun g => ablationPrediction sk train mt st g ctrl)) ∧
    ∀ g ∈ featureList fg,
      ablationPrediction sk train mt st g disease =
        predict_ages sk (ablationTrained sk train mt st g).1
          (ablationTrained sk train mt st g).2
          (astypeFloat64 (dropD disease (nonFeatureCols ++ g))) ∧
      ablationPrediction sk train mt st g ctrl =
        predict_ages sk (ablationTrained sk train mt st g).1
          (ablationTrained sk train mt st g).2
          (astypeFloat64 (dropD ctrl (nonFeatureCols ++ g))) :=
  ⟨ablationLoop_some_eq sk train disease ctrl mt st hmt (featureList fg) hcols,
    fun _ _ => ⟨rfl, rfl⟩⟩

/-- Witness for C10 at a concrete backend and concrete cohort tables. -/
theorem evaluate_shared_model_witness :
    evaluate_feature_ablation skTriv fgTest dfTest dfTest "ridge" "minmax" (some dfTest) =
      Except.ok ((featureList fgTest).map
        (fun g => ablationPrediction skTriv dfTest "ridge" "minmax" g dfTest),
        (featureList fgTest).map
          (fun g => ablationPrediction skTriv dfTest "ridge" "minmax" g dfTest)) ∧
    ∀ g ∈ featureList fgTest,
      ablationPrediction skTriv dfTest "ridge" "minmax" g dfTest =
        predict_ages skTriv (ablationTrained skTriv dfTest "ridge" "minmax" g).1
          (ablationTrained skTriv dfTest "ridge" "minmax" g).2
          (astypeFloat64 (dropD dfTest (nonFeatureCols ++ g))) ∧
      ablationPrediction skTriv dfTest "ridge" "minmax" g dfTest =
        predict_ages skTriv (ablationTrained skTriv dfTest "ridge" "minmax" g).1
          (ablationTrained skTriv dfTest "ridge" "minmax" g).2
          (astypeFloat64 (dropD dfTest (nonFeatureCols ++ g))) :=
  evaluate_shared_model_per_group skTriv fgTest dfTest dfTest dfTest "ridge" "minmax"
    (Or.inl rfl) (by decide)

theorem npSub_ok_of_compat (a b : Series)
    (h : a.length = b.length ∨ a.length = 1 ∨ b.length = 1) :
    ∃ d, npSub a b = Except.ok d := by
  unfold npSub
  by_cases h0 : a.length = b.length
  · rw [if_pos h0]
    exact ⟨_, rfl⟩
  · rw [if_neg h0]
    by_cases h2 : a.length = 1
    · rw [if_pos h2]
      exact ⟨_, rfl⟩
    · rw [if_neg h2]
      have h3 : b.length = 1 := by
        rcases h with h | h | h
        · exact absurd h h0
        · exact absurd h h2
        · exact h
      rw [if_pos h3]
      exact ⟨_, rfl⟩

/-- Counterexample for C4 as stated: a prediction array of length 1 against
a ground truth of length 3 has mismatched lengths, yet `calculate_mae`
returns a value (numpy broadcasts the length-1 operand) instead of
failing. -/
theorem calculate_mae_broadcast_cex :
    calculate_mae [[5]] [5, 5, 5] = Except.ok [some 0] ∧
    ([(5 : ℚ)] : Series).length ≠ ([5, 5, 5] : Series).length :=
  ⟨by norm_num [calculate_mae, npSub, npMean, npAbs], by decide⟩

/-- C4 as amended: `calculate_mae` fails with numpy's broadcast error, and
returns no value, whenever some prediction array's length differs from the
ground truth's and neither that array nor the ground truth has length 1
(the lengths are not broadcast-compatible). -/
theorem calculate_mae_incompatible_error (l : List Series) (y : Series)
    (h : ∃ p ∈ l, p.length ≠ y.length ∧ p.length ≠ 1 ∧ y.length ≠ 1) :
    ∃ n m, calculate_mae l y = Except.error (PyError.broadcastError n m) := by
  induction l with
  | nil => simp at h
  | cons p rest ih =>
    by_cases hbad : p.length ≠ y.length ∧ p.length ≠ 1 ∧ y.length ≠ 1
    · refine ⟨p.length, y.length, ?_⟩
      have hsub : npSub p y = Except.error (PyError.broadcastError p.length y.length) := by
        simp [npSub, hbad.1, hbad.2.1, hbad.2.2]
      simp [calculate_mae, hsub]
    · have hexr : ∃ q ∈ rest, q.length ≠ y.length ∧ q.length ≠ 1 ∧ y.length ≠ 1 := by
        rcases h with ⟨q, hq, hprop⟩
        rcases List.mem_cons.mp hq with rfl | hq2
        · exact absurd hprop hbad
        · exact ⟨q, hq2, hprop⟩
      rcases ih hexr with ⟨n, m, hrec⟩
      push_neg at hbad
      have hcompat : p.length = y.length ∨ p.length = 1 ∨ y.length = 1 := by
        by_cases h1 : p.length = y.length
        · exact Or.inl h1
        · by_cases h2 : p.length = 1
          · exact Or.inr (Or.inl h2)
          · exact Or.inr (Or.inr (hbad h1 h2))
      rcases npSub_ok_of_compat p y hcompat with ⟨d, hd⟩
      exact ⟨n, m, by simp [calculate_mae, hd, hrec]⟩

/-- Witness for the amended C4 at concrete incompatible shapes. -/
theorem calculate_mae_incompatible_error_witness :
    ∃ n m, calculate_mae [[1, 2, 3]] [4, 5] = Except.error (PyError.broadcastError n m) :=
  calculate_mae_incompatible_error [[1, 2, 3]] [4, 5] (by decide)

/-- Counterexample for C5 as stated: `train_model` called with the
unrecognized scaler selector `'bogus'` does not fail; it returns a fitted
model and a scaler fitted as the standard scaler (the silent default of the
conditional expression). -/
theorem train_model_scaler_cex :
    train_model skTriv dfX1 y1 "ridge" "bogus" =
      Except.ok (ModelSpec.ridge 1, ScalerKind.standard) := rfl

/-- C5 as amended: a scaler selector other than `'minmax'` (recognized or
not) raises no error: `train_model` proceeds and fits the standard scaler;
only the model-kind selector is validated. -/
theorem train_model_scaler_fallback (sk : Sklearn) (X : DataFrame) (y : Series)
    (st : String) (h : st ≠ "minmax") :
    train_model sk X y "ridge" st = Except.ok (train_model_result sk X y "ridge" st) ∧
    (train_model_result sk X y "ridge" st).2 =
      (sk.scalerFitTransform ScalerKind.standard X).1 := by
  refine ⟨train_model_valid_ok sk X y "ridge" st (Or.inl rfl), ?_⟩
  simp [train_model_result, scalerKindOf, h]

/-- Witness for the amended C5 at a concrete unrecognized selector. -/
theorem train_model_scaler_fallback_witness :
    train_model skTriv dfX1 y1 "ridge" "bogus" =
      Except.ok (train_model_result skTriv dfX1 y1 "ridge" "bogus") ∧
    (train_model_result skTriv dfX1 y1 "ridge" "bogus").2 =
      (skTriv.scalerFitTransform ScalerKind.standard dfX1).1 :=
  train_model_scaler_fallback skTriv dfX1 y1 "bogus" (by decide)

/-- C6: `train_model` with a model-kind selector that is neither `'ridge'`
nor `'svm'` fails with `ValueError` whose message names the offending
selector value. -/
theorem train_model_invalid_kind (sk : Sklearn) (X : DataFrame) (y : Series)
    (mt st : String) (h1 : mt ≠ "ridge") (h2 : mt ≠ "svm") :
    train_model sk X y mt st =
      Except.error (PyError.valueError ("Unsupported model type: " ++ mt)) := by
  simp [train_model, h1, h2]

/-- Witness for C6 at a concrete unrecognized model kind. -/
theorem train_model_invalid_kind_witness :
    train_model skTriv dfX1 y1 "bogus" "minmax" =
      Except.error (PyError.valueError ("Unsupported model type: " ++ "bogus")) :=
  train_model_invalid_kind skTriv dfX1 y1 "bogus" "minmax" (by decide) (by decide)

/-- C7: every value returned by `predict_ages` equals the model's raw output
on the scaler-transformed features rounded to exactly 3 decimal digits: the
result is the elementwise `round3` of `modelPredict` applied after
`scalerTransform` with the given fitted scaler (transform only — the
definition never invokes a fit on the evaluation data), each returned value
is an integer multiple of 1/1000, and `round3` moves a value by at most
half of the last kept digit. -/
theorem predict_ages_spec (sk : Sklearn) (model : sk.ModelState) (scaler : sk.ScalerState)
    (X : DataFrame) :
    predict_ages sk model scaler X =
      (sk.modelPredict model (sk.scalerTransform scaler X)).map round3 ∧
    (predict_ages sk model scaler X).all (fun v => decide ((v * 1000).den = 1)) = true ∧
    ∀ q : ℚ, |round3 q - q| ≤ 1 / 2000 := by
  refine ⟨rfl, ?_, round3_close⟩
  rw [List.all_eq_true]
  intro v hv
  rcases List.mem_map.mp (by simpa [predict_ages, npRound3] using hv) with ⟨q, _, rfl⟩
  simp [round3_mul_1000_den q]

theorem calculate_mae_ok_of_lengths (y : Series) :
    ∀ l : List Series, (∀ p ∈ l, p.length = y.length) →
      calculate_mae l y = Except.ok (l.map (fun p => maeValue p y)) := by
  intro l
  induction l with
  | nil => intro _; rfl
  | cons p rest ih =>
    intro hl
    have hp : p.length = y.length := hl p (by simp)
    have hsub : npSub p y = Except.ok (List.zipWith (fun x v => x - v) p y) := by
      unfold npSub
      rw [if_pos hp]
    simp [calculate_mae, hsub, ih (fun q hq => hl q (by simp [hq])), maeValue]

/-- Counterexample for C8 as stated: with an empty ground truth and an
empty prediction array (equal lengths, and every prediction vacuously equals
its ground truth), the returned value is NaN (`np.mean` of an empty array,
modelled as `none`) — not a non-negative number and not zero. -/
theorem calculate_mae_nan_cex :
    calculate_mae [([] : Series)] ([] : Series) = Except.ok [none] := rfl

/-- C8 as amended: for prediction arrays each of the same length as a
nonempty ground-truth vector, `calculate_mae` returns one score per input
array in input order, every score is a non-negative number, and a score is
zero exactly when every prediction in the corresponding array equals its
corresponding ground-truth value. -/
theorem calculate_mae_nonneg_spec (l : List Series) (y : Series)
    (hlen : ∀ p ∈ l, p.length = y.length) (hy : y ≠ []) :
    calculate_mae l y = Except.ok (l.map (fun p => maeValue p y)) ∧
    ∀ p ∈ l, ∃ q, maeValue p y = some q ∧ 0 ≤ q ∧ (q = 0 ↔ p = y) := by
  refine ⟨calculate_mae_ok_of_lengths y l hlen, ?_⟩
  intro p hp
  have hlp : p.length = y.length := hlen p hp
  have hylen : y.length ≠ 0 := fun h0 => hy (List.length_eq_zero.mp h0)
  have hxslen : (npAbs (List.zipWith (fun x v => x - v) p y)).length = y.length := by
    simp [npAbs, List.length_zipWith, hlp]
  have hne : npAbs (List.zipWith (fun x v => x - v) p y) ≠ [] := by
    intro h0
    rw [h0] at hxslen
    exact hylen hxslen.symm
  have hmean : maeValue p y =
      some ((npAbs (List.zipWith (fun x v => x - v) p y)).sum /
        ((npAbs (List.zipWith (fun x v => x - v) p y)).length : ℚ)) := by
    unfold maeValue npMean
    rw [if_neg (by simpa [List.isEmpty_iff] using hne)]
  refine ⟨_, hmean, ?_, ?_⟩
  · refine div_nonneg (list_sum_nonneg _ ?_) (by positivity)
    intro a ha
    simp only [npAbs, List.mem_map] at ha
    rcases ha with ⟨d, _, rfl⟩
    exact abs_nonneg d
  · rw [div_eq_zero_iff]
    constructor
    · rintro (hs | hlen0)
      · exact (abs_diffs_sum_zero_iff p y hlp).mp hs
      · exfalso
        rw [hxslen] at hlen0
        exact hylen (by exact_mod_cast hlen0)
    · intro hpy
      exact Or.inl ((abs_diffs_sum_zero_iff p y hlp).mpr hpy)

/-- Witness for the amended C8 at concrete equal-length inputs. -/
theorem calculate_mae_nonneg_witness :
    calculate_mae [[1, 2], [2, 4]] [1, 2] =
      Except.ok ([[1, 2], [2, 4]].map (fun p => maeValue p [1, 2])) :=
  (calculate_mae_nonneg_spec [[1, 2], [2, 4]] [1, 2] (by decide) (by decide)).1

/-- C9: on the ridge kind, `train_model`'s hyperparameter selection is the
`RidgeCV` search configured with exactly 100 geometrically spaced
regularization strengths (exponents linearly spaced from 10 down to -2, each
strength `10 ^ exponent` scaled by 0.5), repeated 5-fold/10-repeat
cross-validation with shuffling seed 1, scored by negative mean absolute
error; the final model is the `Ridge` estimator at the best strength fitted
on the full scaled training set. -/
theorem train_ridge_search_spec (sk : Sklearn) (X : DataFrame) (y : Series) (st : String) :
    train_model sk X y "ridge" st =
      Except.ok (sk.fitModel
        (ModelSpec.ridge (sk.ridgeCVAlpha ridgeCVConfig
          (sk.scalerFitTransform (scalerKindOf st) X).2 y))
        (sk.scalerFitTransform (scalerKindOf st) X).2 y,
        (sk.scalerFitTransform (scalerKindOf st) X).1) ∧
    ridgeCVConfig.alphas.exponents.length = 100 ∧
    ridgeCVConfig.alphas.exponents.getD 0 0 = 10 ∧
    ridgeCVConfig.alphas.exponents.getD 99 0 = -2 ∧
    (∀ i : Nat, i + 1 < 100 →
      ridgeCVConfig.alphas.exponents.getD (i + 1) 0 -
        ridgeCVConfig.alphas.exponents.getD i 0 = -(4 / 33)) ∧
    ridgeCVConfig.alphas.base = 10 ∧
    ridgeCVConfig.alphas.scale = 1 / 2 ∧
    ridgeCVConfig.cv = ⟨5, 10, 1⟩ ∧
    ridgeCVConfig.scoring = "neg_mean_absolute_error" := by
  have hexp : ridgeCVConfig.alphas.exponents = npLinspace 10 (-2) 100 := rfl
  refine ⟨rfl, by simp [hexp, npLinspace], ?_, ?_, ?_, rfl,
    by norm_num [ridgeCVConfig, ridgeAlphas], rfl, rfl⟩
  · rw [hexp, npLinspace_getD 10 (-2) 100 0 (by norm_num)]
    norm_num
  · rw [hexp, npLinspace_getD 10 (-2) 100 99 (by norm_num)]
    norm_num
  · intro i hi
    rw [hexp, npLinspace_getD 10 (-2) 100 (i + 1) hi,
      npLinspace_getD 10 (-2) 100 i (by omega)]
    push_cast
    ring
